import Mathlib

/-!
Verification development for the ETTIway runtime path-authoring and
persistence module (src/app/js/map.js).

The module is embedded shallowly:

* JS numbers (map coordinates) are modelled as rationals, so a decimal
  such as 45.1 is the exact rational 451/10 and rounding to six decimal
  places is exact rational arithmetic.
* The mutable module state of map.js (drawModeEnabled, currentPathPoints,
  the export id counter, window.runtimePaths, and the localStorage slot
  under STORAGE_KEY) is a record, and every function of the module is a
  state transformer on it.
* localStorage writes always succeed in this model (the source wraps them
  in try/catch and the claims under study assume the success path); the
  number of writes and of pathsUpdated events is tracked so that
  "persists" and "notifies" are observable.
* Date.now() is passed in as an explicit argument where the source calls
  it.
* The clipboard is an external effect that cannot change module state; it
  is modelled as an oracle argument describing which of the three branches
  of the try/catch in exportCurrentPath runs.
-/

namespace ETTIway

/-- A geographic point as delivered by a map click event: latitude and
longitude (e.latlng in the source). -/
structure Point where
  lat : ℚ
  lng : ℚ
deriving DecidableEq, Repr

/-- A path record as built by exportCurrentPath and stored in
window.runtimePaths: an id, a type tag, and a list of [lat, lng] pairs. -/
structure PathRecord where
  id : String
  type : String
  points : List (ℚ × ℚ)
deriving DecidableEq, Repr

/-- The mutable state of the map.js module that the path-authoring
operations read and write. -/
structure MapState where
  /-- let drawModeEnabled = false -/
  drawModeEnabled : Bool
  /-- let currentPathPoints = [] (the Draft Path) -/
  currentPathPoints : List Point
  /-- let _drawIdCounter = 1 -/
  drawIdCounter : Nat
  /-- window.runtimePaths (the Path Store) -/
  runtimePaths : List PathRecord
  /-- the value persisted under STORAGE_KEY, as structured data; none
  models an absent key -/
  storage : Option (List PathRecord)
  /-- how many times saveRuntimePathsToStorage has run -/
  storageWrites : Nat
  /-- how many pathsUpdated events have been dispatched -/
  notifications : Nat
deriving DecidableEq, Repr

/-- The module state right after loading with no persisted paths:
drawModeEnabled = false, currentPathPoints = [], _drawIdCounter = 1,
window.runtimePaths = []. -/
def initialState : MapState :=
  { drawModeEnabled := false
    currentPathPoints := []
    drawIdCounter := 1
    runtimePaths := []
    storage := none
    storageWrites := 0
    notifications := 0 }

/-- saveRuntimePathsToStorage: localStorage.setItem(STORAGE_KEY,
JSON.stringify(window.runtimePaths)). -/
def saveRuntimePathsToStorage (s : MapState) : MapState :=
  { s with storage := some s.runtimePaths, storageWrites := s.storageWrites + 1 }

/-- window.dispatchEvent(new CustomEvent('pathsUpdated')). -/
def dispatchPathsUpdated (s : MapState) : MapState :=
  { s with notifications := s.notifications + 1 }

/-- enableDrawMode: returns unchanged if already drawing, otherwise sets
drawModeEnabled = true, resets currentPathPoints = [] and attaches the
click handler. -/
def enableDrawMode (s : MapState) : MapState :=
  if s.drawModeEnabled then s
  else { s with drawModeEnabled := true, currentPathPoints := [] }

/-- disableDrawMode: returns unchanged if not drawing, otherwise sets
drawModeEnabled = false and detaches the click handler; the draft is
retained. -/
def disableDrawMode (s : MapState) : MapState :=
  if s.drawModeEnabled then { s with drawModeEnabled := false } else s

/-- A map click event. The click handler (which pushes e.latlng onto
currentPathPoints) is attached exactly while drawModeEnabled, so a click
while idle leaves the module state unchanged. -/
def mapClick (s : MapState) (p : Point) : MapState :=
  if s.drawModeEnabled then
    { s with currentPathPoints := s.currentPathPoints ++ [p] }
  else s

/-- undoLastPoint: no-op on an empty draft, otherwise pops the last
point. -/
def undoLastPoint (s : MapState) : MapState :=
  if s.currentPathPoints.isEmpty then s
  else { s with currentPathPoints := s.currentPathPoints.dropLast }

/-- clearCurrentPath: empties the draft (drawing state untouched). -/
def clearCurrentPath (s : MapState) : MapState :=
  { s with currentPathPoints := [] }

/-- Number.prototype.toFixed(6) followed by parseFloat, on exact decimal
input: the nearest multiple of 10⁻⁶, ties resolved upward (the ECMAScript
toFixed picks the larger candidate on a tie). -/
def round6 (q : ℚ) : ℚ :=
  (⌊q * 1000000 + 1 / 2⌋ : ℚ) / 1000000

/-- The coordinate pair exportCurrentPath builds from one draft point:
[parseFloat(p.lat.toFixed(6)), parseFloat(p.lng.toFixed(6))]. -/
def roundPoint (p : Point) : ℚ × ℚ :=
  (round6 p.lat, round6 p.lng)

/-- addPathObject. The argument none models a call where obj is falsy or
obj.points is not an array (the guard returns null); with a typed record
the points field is always an array. A record id of "" models a falsy
obj.id, replaced by 'path_' + Date.now(). On success the record is pushed
onto window.runtimePaths, the store is persisted, pathsUpdated is
dispatched, and obj.id is returned. -/
def addPathObject (now : Nat) (s : MapState) (obj : Option PathRecord) :
    MapState × Option String :=
  match obj with
  | none => (s, none)
  | some r =>
    let r' := if r.id = "" then { r with id := "path_" ++ Nat.repr now } else r
    let s' := { s with runtimePaths := s.runtimePaths ++ [r'] }
    (dispatchPathsUpdated (saveRuntimePathsToStorage s'), some r'.id)

/-- removePathById: returns false at once on a falsy id (modelled by "").
Otherwise findIndex + splice(idx, 1) deletes the first record whose id
matches, if any (modelled by List.eraseP); the store is then persisted and
pathsUpdated dispatched unconditionally, and the result is true. -/
def removePathById (s : MapState) (i : String) : MapState × Bool :=
  if i = "" then (s, false)
  else
    let s' := { s with runtimePaths := s.runtimePaths.eraseP (fun p => p.id == i) }
    (dispatchPathsUpdated (saveRuntimePathsToStorage s'), true)

/-- Which branch of the clipboard try/catch in exportCurrentPath runs:
writeText succeeded, navigator.clipboard was missing, or writeText threw
(the catch branch). -/
inductive ClipboardOutcome where
  | copied
  | unavailable
  | failed
deriving DecidableEq, Repr

/-- The transient message _showDrawMessage displays for each clipboard
outcome. -/
def clipboardMessage : ClipboardOutcome → String
  | .copied => "Path exported and copied to clipboard"
  | .unavailable => "Path exported (clipboard not available)"
  | .failed => "Exported but clipboard copy failed"

/-- What exportCurrentPath reported: the empty-draft early return with its
message, or the exported payload with the clipboard message. -/
inductive ExportOutcome where
  | emptyPath (msg : String)
  | exported (r : PathRecord) (msg : String)
deriving DecidableEq, Repr

/-- exportCurrentPath: on an empty draft, shows 'No points to export' and
returns with no state change. Otherwise builds the payload
\x7b id: 'path_' + _drawIdCounter++, type: 'pedestrian', points: rounded
draft points \x7d, attempts the clipboard copy (state-irrelevant), and
hands the payload to addPathObject. The draft and the drawing flag are
not touched. -/
def exportCurrentPath (now : Nat) (clip : ClipboardOutcome) (s : MapState) :
    MapState × ExportOutcome :=
  if s.currentPathPoints = [] then
    (s, .emptyPath "No points to export")
  else
    let i := "path_" ++ Nat.repr s.drawIdCounter
    let s1 := { s with drawIdCounter := s.drawIdCounter + 1 }
    let payload : PathRecord :=
      { id := i
        type := "pedestrian"
        points := s.currentPathPoints.map roundPoint }
    let s2 := (addPathObject now s1 (some payload)).1
    (s2, .exported payload (clipboardMessage clip))

/-- exportAllRuntimePaths serializes window.runtimePaths verbatim (the
records it contains at call time, in order, with no re-rounding). -/
def exportAllRuntimePaths (s : MapState) : List PathRecord :=
  s.runtimePaths

/-- The JSON values JSON.parse can return. -/
inductive Json where
  | null
  | bool (b : Bool)
  | num (q : ℚ)
  | str (s : String)
  | arr (elems : List Json)
  | obj (fields : List (String × Json))

/-- JSON insignificant whitespace. -/
def isJsonWs (c : Char) : Bool :=
  c == ' ' || c.toNat == 9 || c.toNat == 10 || c.toNat == 13

/-- Drop leading JSON whitespace. -/
def skipWs : List Char → List Char
  | c :: cs => if isJsonWs c then skipWs cs else c :: cs
  | [] => []

/-- Value of a hexadecimal digit. -/
def hexVal (c : Char) : Option Nat :=
  if c.isDigit then some (c.toNat - 48)
  else if 'a' ≤ c && c ≤ 'f' then some (c.toNat - 87)
  else if 'A' ≤ c && c ≤ 'F' then some (c.toNat - 55)
  else none

/-- Body of a JSON string literal, after the opening quote (codepoint 34);
escapes are introduced by a backslash (codepoint 92). -/
def parseStringBody (acc : List Char) : List Char → Option (String × List Char)
  | [] => none
  | c :: cs =>
    if c.toNat = 34 then some (String.mk acc.reverse, cs)
    else if c.toNat = 92 then
      match cs with
      | [] => none
      | e :: cs2 =>
        if e.toNat = 34 || e.toNat = 92 || e = '/' then parseStringBody (e :: acc) cs2
        else if e = 'b' then parseStringBody (Char.ofNat 8 :: acc) cs2
        else if e = 'f' then parseStringBody (Char.ofNat 12 :: acc) cs2
        else if e = 'n' then parseStringBody (Char.ofNat 10 :: acc) cs2
        else if e = 'r' then parseStringBody (Char.ofNat 13 :: acc) cs2
        else if e = 't' then parseStringBody (Char.ofNat 9 :: acc) cs2
        else if e = 'u' then
          match cs2 with
          | a :: b :: c2 :: d :: cs3 =>
            match hexVal a, hexVal b, hexVal c2, hexVal d with
            | some ha, some hb, some hc, some hd =>
              parseStringBody (Char.ofNat (((ha * 16 + hb) * 16 + hc) * 16 + hd) :: acc) cs3
            | _, _, _, _ => none
          | _ => none
        else none
    else parseStringBody (c :: acc) cs

/-- Consume a maximal run of decimal digits. -/
def takeDigits : List Char → List Char × List Char
  | c :: cs =>
    if c.isDigit then
      let (ds, rest) := takeDigits cs
      (c :: ds, rest)
    else ([], c :: cs)
  | [] => ([], [])

/-- Numeric value of a digit run. -/
def digitsToNat (acc : Nat) : List Char → Nat
  | [] => acc
  | c :: cs => digitsToNat (acc * 10 + (c.toNat - 48)) cs

/-- Exponent suffix of a JSON number, applied to the mantissa. -/
def parseExp (mant : ℚ) (cs : List Char) : Option (ℚ × List Char) :=
  let signed : Bool × List Char :=
    match cs with
    | '+' :: rest => (false, rest)
    | '-' :: rest => (true, rest)
    | _ => (false, cs)
  match takeDigits signed.2 with
  | ([], _) => none
  | (ds, cs2) =>
    let e := digitsToNat 0 ds
    some ((if signed.1 then mant / (10 : ℚ) ^ e else mant * (10 : ℚ) ^ e), cs2)

/-- A JSON number: optional minus, digits, optional fraction, optional
exponent, as an exact rational. -/
def parseNumber (cs : List Char) : Option (ℚ × List Char) :=
  let signed : Bool × List Char :=
    match cs with
    | '-' :: rest => (true, rest)
    | _ => (false, cs)
  match takeDigits signed.2 with
  | ([], _) => none
  | (ip, cs2) =>
    let intPart : ℚ := (digitsToNat 0 ip : ℚ)
    let withFrac : Option (ℚ × List Char) :=
      match cs2 with
      | '.' :: rest =>
        match takeDigits rest with
        | ([], _) => none
        | (fp, rest2) =>
          some (intPart + (digitsToNat 0 fp : ℚ) / (10 : ℚ) ^ fp.length, rest2)
      | _ => some (intPart, cs2)
    match withFrac with
    | none => none
    | some (mant, cs3) =>
      let withExp : Option (ℚ × List Char) :=
        match cs3 with
        | 'e' :: rest => parseExp mant rest
        | 'E' :: rest => parseExp mant rest
        | _ => some (mant, cs3)
      match withExp with
      | none => none
      | some (q, cs4) => some ((if signed.1 then -q else q), cs4)

mutual

/-- One JSON value (fuel-bounded recursive descent); object braces and
string quotes are recognized by codepoint (123, 125, 34). -/
def parseVal : Nat → List Char → Option (Json × List Char)
  | 0, _ => none
  | fuel + 1, cs =>
    match skipWs cs with
    | 'n' :: 'u' :: 'l' :: 'l' :: rest => some (.null, rest)
    | 't' :: 'r' :: 'u' :: 'e' :: rest => some (.bool true, rest)
    | 'f' :: 'a' :: 'l' :: 's' :: 'e' :: rest => some (.bool false, rest)
    | '[' :: rest =>
      (match skipWs rest with
       | ']' :: rest2 => some (.arr [], rest2)
       | rest2 =>
         match parseItems fuel rest2 with
         | some (xs, rest3) => some (.arr xs, rest3)
         | none => none)
    | c :: rest =>
      if c.toNat = 34 then
        match parseStringBody [] rest with
        | some (s, rest2) => some (.str s, rest2)
        | none => none
      else if c.toNat = 123 then
        match skipWs rest with
        | c2 :: rest2 =>
          if c2.toNat = 125 then some (.obj [], rest2)
          else
            match parseFields fuel (c2 :: rest2) with
            | some (fs, rest3) => some (.obj fs, rest3)
            | none => none
        | [] => none
      else if c = '-' || c.isDigit then
        match parseNumber (c :: rest) with
        | some (q, rest2) => some (.num q, rest2)
        | none => none
      else none
    | [] => none

/-- Comma-separated values up to the closing bracket of an array. -/
def parseItems : Nat → List Char → Option (List Json × List Char)
  | 0, _ => none
  | fuel + 1, cs =>
    match parseVal fuel cs with
    | some (j, rest) =>
      (match skipWs rest with
       | ',' :: rest2 =>
         (match parseItems fuel rest2 with
          | some (xs, rest3) => some (j :: xs, rest3)
          | none => none)
       | ']' :: rest2 => some ([j], rest2)
       | _ => none)
    | none => none

/-- Comma-separated key-value pairs up to the closing brace (codepoint
125) of an object. -/
def parseFields : Nat → List Char → Option (List (String × Json) × List Char)
  | 0, _ => none
  | fuel + 1, cs =>
    match skipWs cs with
    | c :: rest =>
      if c.toNat = 34 then
        match parseStringBody [] rest with
        | some (k, rest2) =>
          (match skipWs rest2 with
           | ':' :: rest3 =>
             (match parseVal fuel rest3 with
              | some (v, rest4) =>
                (match skipWs rest4 with
                 | ',' :: rest5 =>
                   (match parseFields fuel rest5 with
                    | some (fs, rest6) => some ((k, v) :: fs, rest6)
                    | none => none)
                 | c5 :: rest5 =>
                   if c5.toNat = 125 then some ([(k, v)], rest5) else none
                 | [] => none)
              | none => none)
           | _ => none)
        | none => none
      else none
    | [] => none

end

/-- JSON.parse: parse one value, require only whitespace after it, throw
(Except.error, the catch branch) otherwise. -/
def jsonParse (s : String) : Except String Json :=
  match parseVal (s.length + 1) s.data with
  | some (j, rest) =>
    if (skipWs rest).isEmpty then .ok j else .error "Unexpected token in JSON"
  | none => .error "Unexpected token in JSON"

/-- loadRuntimePathsFromStorage: reads the raw string under STORAGE_KEY
(none models a null getItem result), returns [] if it is absent, JSON.parse
throws (the catch branch), or the parse result is not an array; otherwise
returns the parsed array verbatim. Total by construction: the try/catch
means no exception escapes. -/
def loadRuntimePathsFromStorage (raw : Option String) : List Json :=
  match raw with
  | none => []
  | some s =>
    match jsonParse s with
    | .error _ => []
    | .ok j =>
      match j with
      | .arr xs => xs
      | _ => []

/-- The user-interface events that drive the draw session controller. -/
inductive DrawEvent where
  | start
  | stop
  | click (p : Point)
  | undo
  | clear
deriving DecidableEq, Repr

/-- Dispatch one event to the corresponding map.js function. -/
def drawStep (s : MapState) : DrawEvent → MapState
  | .start => enableDrawMode s
  | .stop => disableDrawMode s
  | .click p => mapClick s p
  | .undo => undoLastPoint s
  | .clear => clearCurrentPath s

/-- Run a sequence of draw events from a state. -/
def runDraw (s : MapState) : List DrawEvent → MapState
  | [] => s
  | e :: es => runDraw (drawStep s e) es

/-- Count the accepted clicks of an event trace: clicks that arrive while
the click handler is attached (drawModeEnabled), hence get appended to the
draft. -/
def acceptedClicks (s : MapState) : List DrawEvent → Nat
  | [] => 0
  | e :: es =>
    (match e with
     | .click _ => if s.drawModeEnabled then 1 else 0
     | _ => 0) + acceptedClicks (drawStep s e) es

/-- Recognize an undo event. -/
def isUndo : DrawEvent → Bool
  | .undo => true
  | _ => false

/-- Recognize a clear event. -/
def isClear : DrawEvent → Bool
  | .clear => true
  | _ => false

/-! ### Helper lemmas -/

/-- An export id never collides with the falsy string. -/
theorem pathPrefix_ne_empty (x : String) : ("path_" ++ x) ≠ "" := by
  intro h
  have hlen : ("path_" ++ x).length = ("" : String).length := congrArg String.length h
  rw [String.length_append] at hlen
  have h5 : ("path_" : String).length = 5 := rfl
  have h0 : ("" : String).length = 0 := rfl
  omega

/-- Evaluation rule for round6 when the floor bracket is known. -/
theorem round6_eq_of_bounds (q : ℚ) (k : ℤ) (h1 : (k : ℚ) ≤ q * 1000000 + 1 / 2)
    (h2 : q * 1000000 + 1 / 2 < (k : ℚ) + 1) : round6 q = (k : ℚ) / 1000000 := by
  unfold round6
  rw [Int.floor_eq_iff.mpr ⟨h1, by exact_mod_cast h2⟩]

/-- 45.0 has at most six decimal places, so rounding fixes it. -/
theorem round6_45 : round6 (45 : ℚ) = 45 := by
  rw [round6_eq_of_bounds 45 45000000 (by norm_num) (by norm_num)]; norm_num

/-- 21.0 has at most six decimal places, so rounding fixes it. -/
theorem round6_21 : round6 (21 : ℚ) = 21 := by
  rw [round6_eq_of_bounds 21 21000000 (by norm_num) (by norm_num)]; norm_num

/-- 45.1 has at most six decimal places, so rounding fixes it. -/
theorem round6_45_1 : round6 (451 / 10 : ℚ) = 451 / 10 := by
  rw [round6_eq_of_bounds (451 / 10) 45100000 (by norm_num) (by norm_num)]; norm_num

/-- 21.1 has at most six decimal places, so rounding fixes it. -/
theorem round6_21_1 : round6 (211 / 10 : ℚ) = 211 / 10 := by
  rw [round6_eq_of_bounds (211 / 10) 21100000 (by norm_num) (by norm_num)]; norm_num

/-- 0 is fixed by rounding. -/
theorem round6_zero : round6 (0 : ℚ) = 0 := by
  rw [round6_eq_of_bounds 0 0 (by norm_num) (by norm_num)]; norm_num

/-- The seventh decimal place of 10⁻⁷ is lost: it rounds to 0. -/
theorem round6_tiny : round6 (1 / 10000000 : ℚ) = 0 := by
  rw [round6_eq_of_bounds (1 / 10000000) 0 (by norm_num) (by norm_num)]; norm_num

/-- The store, draft and flag components produced by a successful export. -/
theorem exportCurrentPath_spec (now : Nat) (clip : ClipboardOutcome) (s : MapState)
    (h : s.currentPathPoints ≠ []) :
    exportCurrentPath now clip s =
      ({ s with
          drawIdCounter := s.drawIdCounter + 1
          runtimePaths := s.runtimePaths ++
            [{ id := "path_" ++ Nat.repr s.drawIdCounter
               type := "pedestrian"
               points := s.currentPathPoints.map roundPoint }]
          storage := some (s.runtimePaths ++
            [{ id := "path_" ++ Nat.repr s.drawIdCounter
               type := "pedestrian"
               points := s.currentPathPoints.map roundPoint }])
          storageWrites := s.storageWrites + 1
          notifications := s.notifications + 1 },
        .exported
          { id := "path_" ++ Nat.repr s.drawIdCounter
            type := "pedestrian"
            points := s.currentPathPoints.map roundPoint }
          (clipboardMessage clip)) := by
  rw [exportCurrentPath, if_neg h]
  simp only [addPathObject, saveRuntimePathsToStorage, dispatchPathsUpdated,
    if_neg (pathPrefix_ne_empty (Nat.repr s.drawIdCounter))]

/-! ### Claims -/

/-- C2: export() on an empty Draft Path signals the EmptyPath condition
(the user-visible message 'No points to export') and performs no further
action: the whole module state — Path Store, persisted serialization and
Draft Path included — is returned unchanged and no record is created. -/
theorem exportCurrentPath_emptyDraft (now : Nat) (clip : ClipboardOutcome) (s : MapState)
    (h : s.currentPathPoints = []) :
    exportCurrentPath now clip s = (s, .emptyPath "No points to export") := by
  rw [exportCurrentPath, if_pos h]

/-- Witness for C2 at the initial state, whose draft is empty. -/
theorem exportCurrentPath_emptyDraft_witness :
    exportCurrentPath 0 ClipboardOutcome.copied initialState =
      (initialState, ExportOutcome.emptyPath "No points to export") :=
  exportCurrentPath_emptyDraft 0 ClipboardOutcome.copied initialState rfl

/-- C1 counterexample: the exported record carries the draft coordinates
rounded to six decimal places, not the draft coordinates themselves. With
the one-point draft (10⁻⁷, 0), export adds a record whose points are
[(0, 0)], which differs from the draft point list. -/
theorem exportCurrentPath_rounds_cex :
    ((exportCurrentPath 0 ClipboardOutcome.copied
        { initialState with
            drawModeEnabled := true
            currentPathPoints := [⟨1 / 10000000, 0⟩] }).1.runtimePaths.map
        PathRecord.points = [[((0 : ℚ), (0 : ℚ))]]) ∧
    ((1 / 10000000 : ℚ), (0 : ℚ)) ≠ ((0 : ℚ), (0 : ℚ)) := by
  have hs := exportCurrentPath_spec 0 ClipboardOutcome.copied
      { initialState with
          drawModeEnabled := true
          currentPathPoints := [⟨1 / 10000000, 0⟩] }
      (List.cons_ne_nil _ _)
  constructor
  · rw [hs]
    simp [initialState, roundPoint, round6_zero]
    rw [show ((10000000 : ℚ))⁻¹ = 1 / 10000000 from by norm_num]
    exact round6_tiny
  · intro heq
    have h1 : (1 / 10000000 : ℚ) = 0 := congrArg Prod.fst heq
    norm_num at h1

/-- C1 (amended): for every non-empty Draft Path, export() adds exactly
one new record to the Path Store, with the default type tag 'pedestrian'
and the draft points rounded to six decimal places, in order; the Draft
Path and the Idle/Drawing flag are unchanged. Scenario A is the witness
below: its coordinates are fixed points of the rounding, so the stored
points are [[45.0, 21.0], [45.1, 21.1]] and the draft still holds two
points. -/
theorem exportCurrentPath_appends_one_record (now : Nat) (clip : ClipboardOutcome)
    (s : MapState) (h : s.currentPathPoints ≠ []) :
    (exportCurrentPath now clip s).1.runtimePaths =
      s.runtimePaths ++
        [{ id := "path_" ++ Nat.repr s.drawIdCounter
           type := "pedestrian"
           points := s.currentPathPoints.map roundPoint }] ∧
    (exportCurrentPath now clip s).1.currentPathPoints = s.currentPathPoints ∧
    (exportCurrentPath now clip s).1.drawModeEnabled = s.drawModeEnabled := by
  rw [exportCurrentPath_spec now clip s h]
  exact ⟨rfl, rfl, rfl⟩

/-- The state after Scenario A's drawing phase: start(), click(45.0, 21.0),
click(45.1, 21.1). -/
def scenarioAState : MapState :=
  runDraw initialState
    [DrawEvent.start, DrawEvent.click ⟨45, 21⟩, DrawEvent.click ⟨451 / 10, 211 / 10⟩]

/-- Witness for C1: Scenario A. After start() and the two clicks the draft
is non-empty; export() makes the store gain exactly the record
path_1/pedestrian with points [[45.0, 21.0], [45.1, 21.1]], and the draft
still holds its two points. -/
theorem exportCurrentPath_appends_one_record_witness :
    scenarioAState.currentPathPoints ≠ [] ∧
    (exportCurrentPath 0 ClipboardOutcome.copied scenarioAState).1.runtimePaths =
      [{ id := "path_1", type := "pedestrian",
         points := [(45, 21), (451 / 10, 211 / 10)] }] ∧
    (exportCurrentPath 0 ClipboardOutcome.copied scenarioAState).1.currentPathPoints.length = 2 := by
  have hpts : scenarioAState.currentPathPoints = [⟨45, 21⟩, ⟨451 / 10, 211 / 10⟩] := rfl
  have h0 : scenarioAState.currentPathPoints ≠ [] := by
    rw [hpts]; exact List.cons_ne_nil _ _
  have h := exportCurrentPath_appends_one_record 0 ClipboardOutcome.copied scenarioAState h0
  have hrp : scenarioAState.runtimePaths = [] := rfl
  have hc : scenarioAState.drawIdCounter = 1 := rfl
  have hid : "path_" ++ Nat.repr 1 = "path_1" := rfl
  refine ⟨h0, ?_, ?_⟩
  · rw [h.1, hpts, hrp, hc, hid]
    simp [roundPoint, round6_45, round6_21, round6_45_1, round6_21_1]
  · rw [h.2.1, hpts]
    rfl

/-- A store reached from the empty store by two addPathObject calls that
both carry the explicit id "a". -/
def dupStoreState : MapState :=
  (addPathObject 0
    (addPathObject 0 initialState
      (some { id := "a", type := "t", points := [(1, 1)] })).1
    (some { id := "a", type := "t", points := [(2, 2)] })).1

/-- C3 counterexample: id uniqueness is not an invariant of the Path
Store. addPathObject never inspects existing ids, so the reachable store
dupStoreState holds two records that share the id "a". -/
theorem store_duplicate_ids_cex :
    dupStoreState.runtimePaths.map PathRecord.id = ["a", "a"] ∧
    ¬ (dupStoreState.runtimePaths.map PathRecord.id).Nodup := by
  have he : dupStoreState.runtimePaths.map PathRecord.id = ["a", "a"] := rfl
  refine ⟨he, ?_⟩
  rw [he]
  decide

/-- C3 (amended): the store never enforces id uniqueness — duplicate ids
are reachable (counterexample above), and the export counter restarts at 1
in every session, so a persisted export id can recur after a reload. What
holds instead: each successful export stamps the current session counter
into the new id and increments the counter, so successive exports within
one session embed strictly increasing counter values. -/
theorem exportCurrentPath_counter_increments (now : Nat) (clip : ClipboardOutcome)
    (s : MapState) (h : s.currentPathPoints ≠ []) :
    (exportCurrentPath now clip s).1.drawIdCounter = s.drawIdCounter + 1 ∧
    (exportCurrentPath now clip s).1.runtimePaths.map PathRecord.id =
      s.runtimePaths.map PathRecord.id ++ ["path_" ++ Nat.repr s.drawIdCounter] := by
  rw [exportCurrentPath_spec now clip s h]
  exact ⟨rfl, by simp⟩

/-- Witness for C3 (amended): an export from a one-point draft over the
empty store advances the counter from 1 to 2 and stores the id path_1. -/
theorem exportCurrentPath_counter_increments_witness :
    ({ initialState with currentPathPoints := [⟨45, 21⟩] } : MapState).currentPathPoints ≠ [] ∧
    (exportCurrentPath 0 ClipboardOutcome.copied
        { initialState with currentPathPoints := [⟨45, 21⟩] }).1.drawIdCounter = 2 ∧
    (exportCurrentPath 0 ClipboardOutcome.copied
        { initialState with currentPathPoints := [⟨45, 21⟩] }).1.runtimePaths.map
      PathRecord.id = ["path_1"] := by
  have h0 : ({ initialState with currentPathPoints := [⟨45, 21⟩] } : MapState).currentPathPoints ≠ [] :=
    List.cons_ne_nil _ _
  have h := exportCurrentPath_counter_increments 0 ClipboardOutcome.copied
    { initialState with currentPathPoints := [⟨45, 21⟩] } h0
  exact ⟨h0, by rw [h.1]; rfl, by rw [h.2]; rfl⟩

/-- C4 counterexample: addPathObject performs no length check, so adding a
record whose points list is empty does insert it: the store gains a
record with zero points. -/
theorem addPathObject_empty_points_cex :
    (addPathObject 0 initialState
        (some { id := "a", type := "t", points := [] })).1.runtimePaths =
      [{ id := "a", type := "t", points := [] }] ∧
    ({ id := "a", type := "t", points := ([] : List (ℚ × ℚ)) } : PathRecord).points.length = 0 :=
  ⟨rfl, rfl⟩

/-- C4 (amended): the only guard in addPathObject is on the shape of its
argument — a falsy object or a non-array points field (the none argument)
is rejected with null and nothing is inserted; an empty points array
passes the guard, so the length-≥-1 requirement is not enforced by add.
Records promoted by export() do always carry at least one point, because
the draft was non-empty and rounding is pointwise. -/
theorem addPathObject_guard (now : Nat) (clip : ClipboardOutcome) (s : MapState)
    (h : s.currentPathPoints ≠ []) :
    addPathObject now s none = (s, none) ∧
    ∀ r ∈ (exportCurrentPath now clip s).1.runtimePaths,
      r ∈ s.runtimePaths ∨ 1 ≤ r.points.length := by
  refine ⟨rfl, ?_⟩
  rw [exportCurrentPath_spec now clip s h]
  intro r hr
  simp only [List.mem_append, List.mem_singleton] at hr
  rcases hr with hr | hr
  · exact Or.inl hr
  · right
    rw [hr]
    simp only [List.length_map]
    exact List.length_pos.mpr h

/-- A state with a one-point draft over the empty store. -/
def onePointDraftState : MapState :=
  { initialState with currentPathPoints := [⟨45, 21⟩] }

/-- Witness for C4 (amended): from the one-point-draft state, the none
argument is rejected without insertion, and the record export() creates
has a point count of 1 ≥ 1. -/
theorem addPathObject_guard_witness :
    addPathObject 0 onePointDraftState none = (onePointDraftState, none) ∧
    1 ≤ ({ id := "path_" ++ Nat.repr onePointDraftState.drawIdCounter,
           type := "pedestrian",
           points := onePointDraftState.currentPathPoints.map roundPoint } : PathRecord).points.length := by
  have h := addPathObject_guard 0 ClipboardOutcome.copied onePointDraftState
    (List.cons_ne_nil _ _)
  refine ⟨h.1, ?_⟩
  have hs := exportCurrentPath_spec 0 ClipboardOutcome.copied onePointDraftState
    (List.cons_ne_nil _ _)
  have hmem : ({ id := "path_" ++ Nat.repr onePointDraftState.drawIdCounter,
                 type := "pedestrian",
                 points := onePointDraftState.currentPathPoints.map roundPoint } : PathRecord)
      ∈ (exportCurrentPath 0 ClipboardOutcome.copied onePointDraftState).1.runtimePaths := by
    rw [hs]
    simp
  rcases h.2 _ hmem with hin | hlen
  · have hnil : onePointDraftState.runtimePaths = [] := rfl
    rw [hnil] at hin
    exact absurd hin (List.not_mem_nil _)
  · exact hlen

/-- C5 counterexample: on the reachable store with two records of id "a",
removePathById deletes only the first match, so a second call with the
same id deletes the second record as well: two calls do not equal one. -/
theorem removePathById_not_idempotent_cex :
    (removePathById dupStoreState "a").1.runtimePaths =
      [{ id := "a", type := "t", points := [(2, 2)] }] ∧
    (removePathById (removePathById dupStoreState "a").1 "a").1.runtimePaths = [] ∧
    ([] : List PathRecord) ≠ [{ id := "a", type := "t", points := [(2, 2)] }] :=
  ⟨rfl, rfl, (List.cons_ne_nil _ _).symm⟩

/-- Erasing the first record with a given id twice equals erasing once,
provided the record ids are pairwise distinct. -/
theorem eraseP_id_idem (i : String) :
    ∀ l : List PathRecord, (l.map PathRecord.id).Nodup →
      (l.eraseP (fun p => p.id == i)).eraseP (fun p => p.id == i) =
        l.eraseP (fun p => p.id == i) := by
  intro l
  induction l with
  | nil => intro _; rfl
  | cons a l ih =>
    intro hnd
    rw [List.map_cons, List.nodup_cons] at hnd
    by_cases hpa : a.id = i
    · rw [List.eraseP_cons_of_pos (by simp [hpa])]
      apply List.eraseP_of_forall_not
      intro b hb
      simp only [beq_iff_eq]
      intro hbi
      have hmem : b.id ∈ l.map PathRecord.id := List.mem_map_of_mem _ hb
      rw [hbi, ← hpa] at hmem
      exact hnd.1 hmem
    · rw [List.eraseP_cons_of_neg (by simp [hpa]),
        List.eraseP_cons_of_neg (by simp [hpa]), ih hnd.2]

/-- C5 (amended): removePathById never errors; when no record matches the
id, the call is a no-op on the store contents; and it deletes only the
first matching record, so on every store whose ids are pairwise distinct
(the intended store invariant) calling it twice with the same id produces
the same store as calling it once. The counterexample shows idempotence
fails on reachable stores that carry duplicate ids. -/
theorem removePathById_idempotent (s : MapState) (i : String)
    (hnd : (s.runtimePaths.map PathRecord.id).Nodup) :
    ((∀ r ∈ s.runtimePaths, r.id ≠ i) →
      (removePathById s i).1.runtimePaths = s.runtimePaths) ∧
    (removePathById (removePathById s i).1 i).1.runtimePaths =
      (removePathById s i).1.runtimePaths := by
  by_cases hi : i = ""
  · subst hi
    exact ⟨fun _ => rfl, rfl⟩
  · have hr : ∀ t : MapState,
        (removePathById t i).1.runtimePaths = t.runtimePaths.eraseP (fun p => p.id == i) := by
      intro t
      rw [removePathById, if_neg hi]
      rfl
    constructor
    · intro hnm
      rw [hr]
      apply List.eraseP_of_forall_not
      intro b hb
      simp only [beq_iff_eq]
      exact hnm b hb
    · simp only [hr]
      exact eraseP_id_idem i s.runtimePaths hnd

/-- A store reached from the empty store by two adds with distinct
explicit ids "a" and "b". -/
def distinctStoreState : MapState :=
  (addPathObject 0
    (addPathObject 0 initialState
      (some { id := "a", type := "t", points := [(1, 1)] })).1
    (some { id := "b", type := "t", points := [(2, 2)] })).1

/-- Witness for C5 (amended): on the two-record store with distinct ids
"a" and "b", removing "a" twice equals removing it once. -/
theorem removePathById_idempotent_witness :
    (distinctStoreState.runtimePaths.map PathRecord.id).Nodup ∧
    (removePathById (removePathById distinctStoreState "a").1 "a").1.runtimePaths =
      (removePathById distinctStoreState "a").1.runtimePaths := by
  have he : distinctStoreState.runtimePaths.map PathRecord.id = ["a", "b"] := rfl
  have hnd : (distinctStoreState.runtimePaths.map PathRecord.id).Nodup := by
    rw [he]; decide
  exact ⟨hnd, (removePathById_idempotent distinctStoreState "a" hnd).2⟩

/-- C6: loading the Path Store from persisted storage is total and always
falls back to the empty store: whenever the stored value is absent, fails
to parse as JSON, or parses to anything but an array, the load returns []
— and, the function being total, no exception escapes to the caller (the
source wraps getItem and JSON.parse in try/catch and returns [] from the
catch branch). -/
theorem loadRuntimePathsFromStorage_fallback (raw : Option String)
    (h : ∀ s xs, raw = some s → jsonParse s ≠ Except.ok (Json.arr xs)) :
    loadRuntimePathsFromStorage raw = [] := by
  cases raw with
  | none => rfl
  | some s =>
    cases hp : jsonParse s with
    | error e => simp [loadRuntimePathsFromStorage, hp]
    | ok j =>
      cases j with
      | null => simp [loadRuntimePathsFromStorage, hp]
      | bool b => simp [loadRuntimePathsFromStorage, hp]
      | num q => simp [loadRuntimePathsFromStorage, hp]
      | str t => simp [loadRuntimePathsFromStorage, hp]
      | arr xs => exact absurd hp (h s xs rfl)
      | obj fs => simp [loadRuntimePathsFromStorage, hp]

/-- Witness for C6 (Scenario D plus the absent and non-array cases): the
literal string "not json" fails to parse, "true" parses to a non-array,
and an absent value is no data; each loads as the empty store. -/
theorem loadRuntimePathsFromStorage_fallback_witness :
    loadRuntimePathsFromStorage (some "not json") = [] ∧
    loadRuntimePathsFromStorage (some "true") = [] ∧
    loadRuntimePathsFromStorage none = [] := by
  refine ⟨?_, ?_, ?_⟩
  · apply loadRuntimePathsFromStorage_fallback
    intro s xs hs hok
    injection hs with hs'
    subst hs'
    rw [show jsonParse "not json" = Except.error "Unexpected token in JSON" from rfl] at hok
    cases hok
  · apply loadRuntimePathsFromStorage_fallback
    intro s xs hs hok
    injection hs with hs'
    subst hs'
    rw [show jsonParse "true" = Except.ok (Json.bool true) from rfl] at hok
    injection hok with hok'
    exact Json.noConfusion hok'
  · apply loadRuntimePathsFromStorage_fallback
    intro s xs hs
    exact Option.noConfusion hs

/-- The event trace start, click, click, clear of the C7 counterexample. -/
def clearTrace : List DrawEvent :=
  [DrawEvent.start, DrawEvent.click ⟨45, 21⟩, DrawEvent.click ⟨45, 22⟩, DrawEvent.clear]

/-- C7 counterexample: on the trace start, click(45,21), click(45,22),
clear the draft ends with 0 points, while accepted clicks minus undos
minus clears, clamped at 0, is (2 − 0 − 1).toNat = 1: the claimed formula
fails, because clear() resets the draft to empty instead of removing one
point (start() from Idle likewise resets it). -/
theorem draftLength_formula_cex :
    (runDraw initialState clearTrace).currentPathPoints.length = 0 ∧
    ((acceptedClicks initialState clearTrace : ℤ) -
        (clearTrace.countP isUndo : ℤ) - (clearTrace.countP isClear : ℤ)).toNat = 1 :=
  ⟨rfl, rfl⟩

/-- C7 (amended): the Draft Path length (a natural number, hence ≥ 0)
evolves per event as follows: start() from Idle resets it to 0, start()
while already Drawing and stop() leave it unchanged, a click adds one
exactly when drawing is enabled (an accepted click) and nothing otherwise,
undo() decrements it clamped at 0, and clear() resets it to 0. The
counterexample shows the global clamped-difference formula of the claim
does not hold. -/
theorem drawStep_draftLength (s : MapState) (e : DrawEvent) :
    (drawStep s e).currentPathPoints.length =
      match e with
      | .start => if s.drawModeEnabled then s.currentPathPoints.length else 0
      | .stop => s.currentPathPoints.length
      | .click _ => if s.drawModeEnabled then s.currentPathPoints.length + 1
                    else s.currentPathPoints.length
      | .undo => s.currentPathPoints.length - 1
      | .clear => 0 := by
  cases e with
  | start => by_cases hd : s.drawModeEnabled <;> simp [drawStep, enableDrawMode, hd]
  | stop => by_cases hd : s.drawModeEnabled <;> simp [drawStep, disableDrawMode, hd]
  | click p => by_cases hd : s.drawModeEnabled <;> simp [drawStep, mapClick, hd]
  | undo =>
    by_cases he : s.currentPathPoints.isEmpty
    · rw [List.isEmpty_iff] at he
      simp [drawStep, undoLastPoint, he]
    · simp [drawStep, undoLastPoint, he]
  | clear => simp [drawStep, clearCurrentPath]

/-- Rounding to six decimals is idempotent: its output has at most six
decimal places. -/
theorem round6_idem (q : ℚ) : round6 (round6 q) = round6 q := by
  have h1 : round6 q = ((⌊q * 1000000 + 1 / 2⌋ : ℤ) : ℚ) / 1000000 := rfl
  rw [h1]
  have hmul : (((⌊q * 1000000 + 1 / 2⌋ : ℤ) : ℚ) / 1000000) * 1000000 + 1 / 2 =
      ((⌊q * 1000000 + 1 / 2⌋ : ℤ) : ℚ) + 1 / 2 := by
    field_simp
  rw [round6_eq_of_bounds _ ⌊q * 1000000 + 1 / 2⌋ (by rw [hmul]; linarith)
    (by rw [hmul]; linarith)]

/-- 0.1234567 carries a seventh decimal place, which rounding discards. -/
theorem round6_0_1234567 : round6 (1234567 / 10000000 : ℚ) = 123457 / 1000000 := by
  rw [round6_eq_of_bounds (1234567 / 10000000) 123457 (by norm_num) (by norm_num)]
  norm_num

/-- A store holding one record whose latitude 0.1234567 has seven decimal
places, reached by a direct addPathObject call (the add operation never
rounds). -/
def unroundedStoreState : MapState :=
  (addPathObject 0 initialState
    (some { id := "a", type := "t", points := [(1234567 / 10000000, 0)] })).1

/-- C8 counterexample: the bulk export serializes window.runtimePaths
verbatim and applies no rounding: from the reachable store above it emits
the coordinate 0.1234567, which differs from its own 6-place rounding. -/
theorem exportAllRuntimePaths_no_rounding_cex :
    exportAllRuntimePaths unroundedStoreState =
      [{ id := "a", type := "t", points := [(1234567 / 10000000, 0)] }] ∧
    round6 (1234567 / 10000000 : ℚ) ≠ (1234567 / 10000000 : ℚ) := by
  refine ⟨rfl, ?_⟩
  intro heq
  rw [round6_0_1234567] at heq
  norm_num at heq

/-- C8 (amended): the single-path export rounds every coordinate to six
decimal places before serialization — the exported record carries the
draft points rounded pointwise, and every emitted coordinate is a fixed
point of round6 (an exact 6-decimal value). The bulk export covers all
records of the Path Store at call time as one array, but serializes them
verbatim: no rounding is applied at that step, so records inserted
through direct add with longer fractions are emitted unrounded, per the
counterexample. -/
theorem exportCurrentPath_rounds_all (now : Nat) (clip : ClipboardOutcome)
    (s : MapState) (h : s.currentPathPoints ≠ []) :
    (exportCurrentPath now clip s).2 =
      ExportOutcome.exported
        { id := "path_" ++ Nat.repr s.drawIdCounter, type := "pedestrian",
          points := s.currentPathPoints.map roundPoint }
        (clipboardMessage clip) ∧
    (∀ pt ∈ s.currentPathPoints.map roundPoint,
      round6 pt.1 = pt.1 ∧ round6 pt.2 = pt.2) ∧
    exportAllRuntimePaths (exportCurrentPath now clip s).1 =
      s.runtimePaths ++
        [{ id := "path_" ++ Nat.repr s.drawIdCounter, type := "pedestrian",
           points := s.currentPathPoints.map roundPoint }] := by
  refine ⟨?_, ?_, ?_⟩
  · rw [exportCurrentPath_spec now clip s h]
  · intro pt hpt
    rw [List.mem_map] at hpt
    obtain ⟨p, _, hp⟩ := hpt
    rw [← hp]
    exact ⟨round6_idem p.lat, round6_idem p.lng⟩
  · rw [exportCurrentPath_spec now clip s h]
    rfl

/-- Witness for C8 (amended): exporting the one-point draft (45, 21) and
then bulk-exporting yields the single rounded record. -/
theorem exportCurrentPath_rounds_all_witness :
    onePointDraftState.currentPathPoints ≠ [] ∧
    exportAllRuntimePaths (exportCurrentPath 0 ClipboardOutcome.copied onePointDraftState).1 =
      [{ id := "path_1", type := "pedestrian", points := [(45, 21)] }] := by
  have h0 : onePointDraftState.currentPathPoints ≠ [] := List.cons_ne_nil _ _
  have h := exportCurrentPath_rounds_all 0 ClipboardOutcome.copied onePointDraftState h0
  refine ⟨h0, ?_⟩
  rw [h.2.2]
  have hrp : onePointDraftState.runtimePaths = [] := rfl
  have hc : onePointDraftState.drawIdCounter = 1 := rfl
  have hpts : onePointDraftState.currentPathPoints = [⟨45, 21⟩] := rfl
  rw [hrp, hc, hpts, show ("path_" ++ Nat.repr 1) = "path_1" from rfl]
  simp [roundPoint, round6_45, round6_21]

/-- C9: a clipboard failure never blocks or rolls back the export state
mutation. For every non-empty draft the resulting module state is
identical across clipboard outcomes (copied, unavailable, write failure),
and in every case the record is appended to the Path Store and the store
is persisted. -/
theorem exportCurrentPath_clipboard_independent (now : Nat) (s : MapState)
    (h : s.currentPathPoints ≠ []) (clip clip' : ClipboardOutcome) :
    (exportCurrentPath now clip s).1 = (exportCurrentPath now clip' s).1 ∧
    (exportCurrentPath now clip s).1.runtimePaths =
      s.runtimePaths ++
        [{ id := "path_" ++ Nat.repr s.drawIdCounter, type := "pedestrian",
           points := s.currentPathPoints.map roundPoint }] ∧
    (exportCurrentPath now clip s).1.storage =
      some (s.runtimePaths ++
        [{ id := "path_" ++ Nat.repr s.drawIdCounter, type := "pedestrian",
           points := s.currentPathPoints.map roundPoint }]) := by
  rw [exportCurrentPath_spec now clip s h, exportCurrentPath_spec now clip' s h]
  exact ⟨rfl, rfl, rfl⟩

/-- Witness for C9: exporting the one-point draft with a failing clipboard
write produces the same state as with a successful one, and with the
clipboard unavailable the record is in the store all the same. -/
theorem exportCurrentPath_clipboard_independent_witness :
    onePointDraftState.currentPathPoints ≠ [] ∧
    (exportCurrentPath 0 ClipboardOutcome.failed onePointDraftState).1 =
      (exportCurrentPath 0 ClipboardOutcome.copied onePointDraftState).1 ∧
    (exportCurrentPath 0 ClipboardOutcome.unavailable onePointDraftState).1.runtimePaths.length = 1 := by
  have h0 : onePointDraftState.currentPathPoints ≠ [] := List.cons_ne_nil _ _
  have h1 := exportCurrentPath_clipboard_independent 0 onePointDraftState h0
    ClipboardOutcome.failed ClipboardOutcome.copied
  have h2 := exportCurrentPath_clipboard_independent 0 onePointDraftState h0
    ClipboardOutcome.unavailable ClipboardOutcome.copied
  refine ⟨h0, h1.1, ?_⟩
  rw [h2.2.1]
  rfl

/-- C10: removePathById with a non-empty id that matches no stored record
still persists the (unchanged) store, still dispatches pathsUpdated, and
returns true; only a falsy (empty) id makes it return false, and then the
whole state — storage and notifications included — is untouched. -/
theorem removePathById_noMatch (s : MapState) (i : String)
    (hne : i ≠ "") (hnm : ∀ r ∈ s.runtimePaths, r.id ≠ i) :
    (removePathById s i).1.runtimePaths = s.runtimePaths ∧
    (removePathById s i).1.storage = some s.runtimePaths ∧
    (removePathById s i).1.storageWrites = s.storageWrites + 1 ∧
    (removePathById s i).1.notifications = s.notifications + 1 ∧
    (removePathById s i).2 = true ∧
    ∀ t : MapState, removePathById t "" = (t, false) := by
  have herase : s.runtimePaths.eraseP (fun p => p.id == i) = s.runtimePaths := by
    apply List.eraseP_of_forall_not
    intro b hb
    simp only [beq_iff_eq]
    exact hnm b hb
  rw [removePathById, if_neg hne]
  refine ⟨herase, ?_, rfl, rfl, rfl, fun t => rfl⟩
  show some (s.runtimePaths.eraseP (fun p => p.id == i)) = some s.runtimePaths
  rw [herase]

/-- A store with the single record id "b". -/
def singleRecordState : MapState :=
  (addPathObject 0 initialState
    (some { id := "b", type := "t", points := [(1, 1)] })).1

/-- Witness for C10: removing the absent id "a" from the store holding
only "b" keeps the store, persists it, notifies, and returns true. -/
theorem removePathById_noMatch_witness :
    ("a" : String) ≠ "" ∧
    (removePathById singleRecordState "a").1.runtimePaths = singleRecordState.runtimePaths ∧
    (removePathById singleRecordState "a").1.storageWrites =
      singleRecordState.storageWrites + 1 ∧
    (removePathById singleRecordState "a").1.notifications =
      singleRecordState.notifications + 1 ∧
    (removePathById singleRecordState "a").2 = true := by
  have hne : ("a" : String) ≠ "" := by decide
  have hnm : ∀ r ∈ singleRecordState.runtimePaths, r.id ≠ "a" := by
    intro r hr
    have hl : singleRecordState.runtimePaths =
        [{ id := "b", type := "t", points := [(1, 1)] }] := rfl
    rw [hl, List.mem_singleton] at hr
    rw [hr]
    decide
  have h := removePathById_noMatch singleRecordState "a" hne hnm
  exact ⟨hne, h.1, h.2.2.1, h.2.2.2.1, h.2.2.2.2.1⟩

end ETTIway
